import Mathlib

/-
Verification of the kummatty-app RAG ingestion and chat pipeline.

Shallow embedding of:
  - src/lib/ingestion.ts        (Gemini cloud pipeline: ingestDocuments)
  - src/lib/ingestion_xenova.ts (local Xenova pipeline: ingestDocumentsXenova)
  - the chat POST route handler (src/unnamed/part_001)

External collaborators (PDF extraction, the embedding model runtimes, the
ChromaDB vector store) are modelled as parameters: extraction is a function
from file name to an Except result, the cloud embedding API response is a
function from the chunk batch to an optional list of vectors, the local
tensor is a function from the chunk batch to an index-to-vector map, and the
vector store is a key-to-row map with overwrite-by-id upsert semantics
(spec section 4.4: upsert is overwrite-semantics keyed by id).

The embedding payload type is a type parameter E throughout: the repository
code never inspects the numeric contents of a vector, it only moves vectors
around, so the model is parametric in them.
-/

namespace Kummatty

/-- Metadata record attached to each chunk row.  It has exactly the fields
source and chunk_index, mirroring the object literal pushed in
src/lib/ingestion.ts line 148 and src/lib/ingestion_xenova.ts lines 133-136. -/
structure Metadata where
  source : String
  chunk_index : Nat
deriving DecidableEq

/-- One row of the vector-store collection: embedding vector, document text
and metadata (the id is the key under which the row is stored). -/
structure Row (E : Type) where
  embedding : E
  document : String
  metadata : Metadata
deriving DecidableEq

/-- The vector-store collection, keyed by row id.  ChromaDB upsert has
overwrite-semantics keyed by id (spec section 4.4), so a collection is
modelled as a map from id to an optional row. -/
def Store (E : Type) := String → Option (Row E)

/-- The four parallel arrays passed to collection.upsert in both pipelines:
ids, embeddings, documents, metadatas. -/
structure Batch (E : Type) where
  ids : List String
  embeddings : List E
  documents : List String
  metadatas : List Metadata

/-- Result value of both ingestion entry points:
  Promise of success boolean, count and optional error string. -/
structure IngestResult where
  success : Bool
  count : Nat
  error : Option String
deriving DecidableEq

/-- Modelled from the spec: the chunker implementation is
RecursiveCharacterTextSplitter from the external package
langchain/textsplitters, configured in src/lib/ingestion.ts lines 88-92 and
src/lib/ingestion_xenova.ts lines 85-89 with chunkSize 1000, chunkOverlap
200 and separators paragraph, line, space, hard split.  The library source
is not part of this repository, so the chunk-window behaviour described in
spec section 4.1 is modelled: emitted chunks are windows of at most 1000
characters and consecutive windows overlap by the configured 200
characters (hard-split behaviour; the step between window starts is
1000 - 200 = 800).  The first argument is recursion fuel, instantiated with
the length of the character list, which strictly bounds the number of
windows. -/
def chunkGo : Nat → List Char → List (List Char)
  | 0, s => [s]
  | fuel + 1, s =>
    if s.length ≤ 1000 then [s]
    else s.take 1000 :: chunkGo fuel (s.drop 800)

/-- Modelled from the spec: chunk(text), the splitText call of the
configured RecursiveCharacterTextSplitter.  Empty input produces an empty
sequence (spec section 4.1 edge case, and the chunks.length === 0 guard in
src/lib/ingestion_xenova.ts line 121); input no longer than the target size
produces exactly one chunk. -/
def chunkTextModel (text : String) : List String :=
  if text.isEmpty then []
  else (chunkGo text.toList.length text.toList).map (fun cs => String.mk cs)

/-- JavaScript String.prototype.endsWith at the character level: the filter
predicate file.endsWith of src/lib/ingestion.ts line 128 and
src/lib/ingestion_xenova.ts line 95.  It is case sensitive. -/
def endsWithModel (s post : String) : Bool :=
  post.data.isSuffixOf s.data

/-- The file enumeration of both pipelines:
readdir(DOCUMENTS_DIR) filtered by file.endsWith of the lowercase
suffix .pdf (src/lib/ingestion.ts line 128, src/lib/ingestion_xenova.ts
line 95).  The directory listing is the external input. -/
def listPdfFiles (files : List String) : List String :=
  files.filter (fun f => endsWithModel f ".pdf")

/-- The error message returned when the filtered listing is empty
(src/lib/ingestion.ts line 130, src/lib/ingestion_xenova.ts line 97). -/
def noPdfMsg (dir : String) : String :=
  "No PDF files found in the directory: " ++ dir

/-- The error message thrown by generateEmbeddings when the API response
carries no embeddings (src/lib/ingestion.ts line 112). -/
def embedFailMsg : String :=
  "Failed to generate embeddings. The API response did not contain the expected 'embeddings' data."

/-- The id array and metadata array built index for index over the chunks of
one document (the for loop of src/lib/ingestion.ts lines 146-149 and
src/lib/ingestion_xenova.ts lines 131-137): ids.push of the template
source dash i, metadatas.push of the record with source and chunk_index. -/
def buildIds (fileName : String) (n : Nat) : List String :=
  (List.range n).map (fun i => fileName ++ "-" ++ toString i)

/-- Metadata array aligned with buildIds: entry i is the record with
source = fileName and chunk_index = i. -/
def buildMetadatas (fileName : String) (n : Nat) : List Metadata :=
  (List.range n).map (fun i => ⟨fileName, i⟩)

/-- The argument object of collection.upsert for one document: ids,
embeddings, documents = chunks, metadatas
(src/lib/ingestion.ts lines 152-157, src/lib/ingestion_xenova.ts 139-144). -/
def mkBatch {E : Type} (fileName : String) (chunks : List String) (embs : List E) :
    Batch E :=
  ⟨buildIds fileName chunks.length, embs, chunks, buildMetadatas fileName chunks.length⟩

/-- The (id, row) pairs of a batch, pairing the four arrays index for index. -/
def batchRows {E : Type} (b : Batch E) : List (String × Row E) :=
  b.ids.zip ((b.embeddings.zip (b.documents.zip b.metadatas)).map
    (fun p => Row.mk p.1 p.2.1 p.2.2))

/-- ChromaDB collection.upsert: overwrite-semantics keyed by id
(spec section 4.4).  A key present in the batch maps to the batch row,
every other key keeps its previous binding. -/
def upsertBatch {E : Type} (st : Store E) (b : Batch E) : Store E :=
  fun key =>
    match (batchRows b).find? (fun p => p.1 == key) with
    | some p => some p.2
    | none => st key

/-- generateEmbeddings (src/lib/ingestion.ts lines 103-119): one batched
embedContent request; the response's embeddings field is the external
collaborator, modelled as api.  A missing or zero-length embeddings field
throws; otherwise the embeddings are returned in response order. -/
def generateEmbeddings {E : Type} (api : List String → Option (List E))
    (chunks : List String) : Except String (List E) :=
  match api chunks with
  | none => .error embedFailMsg
  | some es => if es.length = 0 then .error embedFailMsg else .ok es

/-- generateEmbeddingsXenova (src/lib/ingestion_xenova.ts lines 67-82):
the extractor call on the whole batch yields an indexable tensor, modelled
as a map from position to vector (or a thrown error); the code then reads
tensor i for i = 0 .. allChunks.length - 1, so the output has one vector
per input text by construction. -/
def generateEmbeddingsXenova {E : Type}
    (tensorize : List String → Except String (Nat → E))
    (allChunks : List String) : Except String (List E) :=
  match tensorize allChunks with
  | .error e => .error e
  | .ok tensor => .ok ((List.range allChunks.length).map tensor)

/-- One iteration of the file loop of ingestDocuments
(src/lib/ingestion.ts lines 135-161): extract text, chunk, embed, build the
id and metadata arrays, upsert.  Any failure (extraction rejection, or the
embeddings check) propagates out of the loop as a thrown error.  On success
it returns the updated store and chunks.length, the amount added to
chunkCount. -/
def processFileCloud {E : Type} (extract : String → Except String String)
    (api : List String → Option (List E)) (st : Store E) (fileName : String) :
    Except String (Store E × Nat) :=
  match extract fileName with
  | .error e => .error e
  | .ok fullText =>
    let chunks := chunkTextModel fullText
    match generateEmbeddings api chunks with
    | .error e => .error e
    | .ok embeddings =>
      .ok (upsertBatch st (mkBatch fileName chunks embeddings), chunks.length)

/-- The for loop over files of ingestDocuments together with the
surrounding try/catch: a thrown error anywhere aborts the loop and the
catch block returns success false, count 0 and the message
(src/lib/ingestion.ts lines 163-167); if every file is processed the
function returns success true with the accumulated chunk count. -/
def ingestLoopCloud {E : Type} (extract : String → Except String String)
    (api : List String → Option (List E)) :
    List String → Store E → Nat → Store E × IngestResult
  | [], st, acc => (st, ⟨true, acc, none⟩)
  | f :: fs, st, acc =>
    match processFileCloud extract api st f with
    | .error msg => (st, ⟨false, 0, some msg⟩)
    | .ok (st', n) => ingestLoopCloud extract api fs st' (acc + n)

/-- ingestDocuments (src/lib/ingestion.ts lines 126-168).  connect is the
getOrCreateCollection collaborator (a connection failure is caught and
returned as a failure result); files is the readdirSync listing of the
documents directory; st is the current collection contents. -/
def ingestDocuments {E : Type} (connect : Except String Unit)
    (extract : String → Except String String)
    (api : List String → Option (List E))
    (dir : String) (files : List String) (st : Store E) : Store E × IngestResult :=
  match connect with
  | .error msg => (st, ⟨false, 0, some msg⟩)
  | .ok _ =>
    let pdfs := listPdfFiles files
    if pdfs.length = 0 then (st, ⟨false, 0, some (noPdfMsg dir)⟩)
    else ingestLoopCloud extract api pdfs st 0

/-- One iteration of the file loop of ingestDocumentsXenova
(src/lib/ingestion_xenova.ts lines 106-148): an extraction failure is
caught and skipped (continue), empty extracted text is skipped, an empty
chunk list is skipped; each skip leaves the store untouched and adds 0 to
chunkCount.  Only an embedding failure escapes as a thrown error. -/
def processFileXenova {E : Type} (extract : String → Except String String)
    (tensorize : List String → Except String (Nat → E))
    (st : Store E) (fileName : String) : Except String (Store E × Nat) :=
  match extract fileName with
  | .error _ => .ok (st, 0)
  | .ok fullText =>
    if fullText.length = 0 then .ok (st, 0)
    else
      let chunks := chunkTextModel fullText
      if chunks.length = 0 then .ok (st, 0)
      else
        match generateEmbeddingsXenova tensorize chunks with
        | .error e => .error e
        | .ok embeddings =>
          .ok (upsertBatch st (mkBatch fileName chunks embeddings), chunks.length)

/-- The for loop over files of ingestDocumentsXenova with the surrounding
try/catch (src/lib/ingestion_xenova.ts lines 102-154): a thrown error
aborts the loop and yields success false, count 0 and the message;
otherwise success true with the accumulated chunk count. -/
def ingestLoopXenova {E : Type} (extract : String → Except String String)
    (tensorize : List String → Except String (Nat → E)) :
    List String → Store E → Nat → Store E × IngestResult
  | [], st, acc => (st, ⟨true, acc, none⟩)
  | f :: fs, st, acc =>
    match processFileXenova extract tensorize st f with
    | .error msg => (st, ⟨false, 0, some msg⟩)
    | .ok (st', n) => ingestLoopXenova extract tensorize fs st' (acc + n)

/-- ingestDocumentsXenova (src/lib/ingestion_xenova.ts lines 85-159). -/
def ingestDocumentsXenova {E : Type} (connect : Except String Unit)
    (extract : String → Except String String)
    (tensorize : List String → Except String (Nat → E))
    (dir : String) (files : List String) (st : Store E) : Store E × IngestResult :=
  match connect with
  | .error msg => (st, ⟨false, 0, some msg⟩)
  | .ok _ =>
    let pdfs := listPdfFiles files
    if pdfs.length = 0 then (st, ⟨false, 0, some (noPdfMsg dir)⟩)
    else ingestLoopXenova extract tensorize pdfs st 0

/-- Response of the chat POST handler (src/unnamed/part_001 lines 29-64):
HTTP status plus the trace of runRAGChatXenova invocations (each such
invocation performs the embedding, retrieval and generation work). -/
structure ChatResponse where
  status : Nat
  ragCalls : List String
deriving DecidableEq

/-- The chat POST handler (src/unnamed/part_001 lines 34-47): destructures
query from the request body; a missing query field or an empty string is
falsy, so the handler answers 400 without calling runRAGChatXenova;
otherwise it calls runRAGChatXenova with the query and answers 200 with the
stream. -/
def chatPOST (query : Option String) : ChatResponse :=
  match query with
  | none => ⟨400, []⟩
  | some q => if q = "" then ⟨400, []⟩ else ⟨200, [q]⟩

/-- A concrete 1001-character text: long enough that the chunker emits two
overlapping windows. -/
def demoText : String := String.mk (List.replicate 1001 'a')

/- ------------------------------------------------------------------ -/
/- Concrete collaborator instances for witnesses and counterexamples. -/
/- ------------------------------------------------------------------ -/

/-- The empty collection. -/
def demoStore0 : Store Nat := fun _ => none

/-- An extraction collaborator that yields the text hello for every file. -/
def demoExtract : String → Except String String := fun _ => .ok "hello"

/-- A well-behaved cloud embedding API response: one vector per input. -/
def demoApi : List String → Option (List Nat) := fun ts => some (ts.map (fun _ => 7))

/-- A well-behaved local tensor collaborator. -/
def demoTensorize : List String → Except String (Nat → Nat) := fun _ => .ok (fun _ => 7)

/-- The collection after ingesting the single-chunk document a.pdf. -/
def demoStore1 : Store Nat := upsertBatch demoStore0 (mkBatch "a.pdf" ["hello"] [7])

/-- An extraction collaborator under which a.pdf yields empty text (the
scanned-PDF case) while every other file yields text. -/
def cexEmptyExtract : String → Except String String :=
  fun f => if f = "a.pdf" then .ok "" else .ok "hello"

/-- An extraction collaborator that yields empty text for every file. -/
def skipExtract : String → Except String String := fun _ => .ok ""

/-- An extraction collaborator with distinct texts per file, paired with
the two failing embedding collaborators below. -/
def failExtract : String → Except String String :=
  fun f => if f = "a.pdf" then .ok "x" else .ok "y"

/-- A cloud embedding API that answers the batch of the first document and
fails on every other batch. -/
def failApi : List String → Option (List Nat) :=
  fun ts => if ts = ["x"] then some [7] else none

/-- A local tensor collaborator that answers the batch of the first
document and throws on every other batch. -/
def failTensorize : List String → Except String (Nat → Nat) :=
  fun ts => if ts = ["x"] then .ok (fun _ => 7) else .error "Tensor conversion failed"

/-- The collection after ingesting the single-chunk document a.pdf with
text x. -/
def failStore1 : Store Nat := upsertBatch demoStore0 (mkBatch "a.pdf" ["x"] [7])

/- ------------------------------------------------------------------ -/
/- Lemmas about the chunker.                                          -/
/- ------------------------------------------------------------------ -/

/-- Every window emitted by chunkGo has at most 1000 characters, provided
the fuel covers the input length (as it does at the single call site). -/
lemma mem_chunkGo_length_le :
    ∀ (fuel : Nat) (s : List Char), s.length ≤ fuel →
      ∀ c ∈ chunkGo fuel s, c.length ≤ 1000 := by
  intro fuel
  induction fuel with
  | zero =>
    intro s hs c hc
    have : s = [] := List.eq_nil_of_length_eq_zero (Nat.le_zero.mp hs)
    subst this
    simp [chunkGo] at hc
    simp [hc]
  | succ fuel ih =>
    intro s hs c hc
    rw [chunkGo] at hc
    by_cases h : s.length ≤ 1000
    · simp [h] at hc
      simp [hc, h]
    · simp [h] at hc
      rcases hc with hc | hc
      · simp [hc]
      · exact ih (s.drop 800) (by simp; omega) c hc

/-- The first window emitted by chunkGo starts with the first 200
characters of its input. -/
lemma chunkGo_getZero_take (fuel : Nat) (s : List Char) :
    ((chunkGo fuel s)[0]?).map (fun c => c.take 200) = some (s.take 200) := by
  cases fuel with
  | zero => simp [chunkGo]
  | succ fuel =>
    rw [chunkGo]
    by_cases h : s.length ≤ 1000
    · simp [h]
    · simp [h, List.take_take]

/-- Overlap of consecutive chunkGo windows: every non-final window has
exactly 1000 characters and its last 200 characters (positions 800 to 999)
are the first 200 characters of the next window. -/
lemma chunkGo_overlap :
    ∀ (fuel : Nat) (s : List Char), s.length ≤ fuel →
      ∀ i, i + 1 < (chunkGo fuel s).length →
        ((chunkGo fuel s)[i]?).map (fun c => c.drop 800) =
          ((chunkGo fuel s)[i + 1]?).map (fun c => c.take 200) ∧
        ((chunkGo fuel s)[i]?).map List.length = some 1000 := by
  intro fuel
  induction fuel with
  | zero =>
    intro s hs i hi
    simp [chunkGo] at hi
  | succ fuel ih =>
    intro s hs i hi
    rw [chunkGo] at hi ⊢
    by_cases h : s.length ≤ 1000
    · simp [h] at hi
    · simp only [if_neg h] at hi ⊢
      cases i with
      | zero =>
        refine ⟨?_, by simp; omega⟩
        have h0 := chunkGo_getZero_take fuel (s.drop 800)
        simp only [List.getElem?_cons_zero, List.getElem?_cons_succ, Option.map_some']
        rw [h0, List.drop_take]
      | succ j =>
        simp only [List.getElem?_cons_succ]
        simp only [List.length_cons] at hi
        exact ih (s.drop 800) (by simp; omega) j (by omega)

/- ------------------------------------------------------------------ -/
/- Claim theorems.                                                    -/
/- ------------------------------------------------------------------ -/

/-- Claim C5: for every text input, every chunk emitted by the chunker has
at most the target size of 1000 characters (this model bounds even the
final hard-split remainder), and consecutive chunks overlap by exactly 200
characters: the last 200 characters of chunk i (which has exactly 1000
characters, so they are positions 800 to 999) equal the first 200
characters of chunk i + 1, whenever a chunk i + 1 exists. -/
theorem c5_chunk_size_overlap (text : String) :
    (∀ c ∈ chunkTextModel text, c.length ≤ 1000) ∧
    (∀ i, i + 1 < (chunkTextModel text).length →
      ((chunkTextModel text)[i]?).map (fun c => c.data.drop 800) =
        ((chunkTextModel text)[i + 1]?).map (fun c => c.data.take 200) ∧
      ((chunkTextModel text)[i]?).map (fun c => (c.data.drop 800).length) = some 200) := by
  constructor
  · intro c hc
    unfold chunkTextModel at hc
    by_cases h : text.isEmpty
    · simp [h] at hc
    · simp only [if_neg h, List.mem_map] at hc
      obtain ⟨d, hd, rfl⟩ := hc
      have := mem_chunkGo_length_le text.toList.length text.toList le_rfl d hd
      simpa [String.length] using this
  · intro i hi
    unfold chunkTextModel at hi ⊢
    by_cases h : text.isEmpty
    · simp [h] at hi
    · simp only [if_neg h] at hi ⊢
      have hlen : i + 1 < (chunkGo text.toList.length text.toList).length := by
        simpa using hi
      have h4 := chunkGo_overlap text.toList.length text.toList le_rfl i hlen
      cases hA : (chunkGo text.toList.length text.toList)[i]? with
      | none => rw [hA] at h4; simp at h4
      | some cA =>
        cases hB : (chunkGo text.toList.length text.toList)[i + 1]? with
        | none =>
          have hBs := List.getElem?_eq_getElem hlen
          rw [hB] at hBs
          cases hBs
        | some cB =>
          rw [hA, hB] at h4
          simp only [Option.map_some'] at h4
          obtain ⟨heq, hlenA⟩ := h4
          have heq' : cA.drop 800 = cB.take 200 := Option.some_injective _ heq
          have hlenA' : cA.length = 1000 := Option.some_injective _ hlenA
          simp only [List.getElem?_map, hA, hB, Option.map_some']
          constructor
          · simp [heq']
          · simp [List.length_drop, hlenA']

set_option maxRecDepth 10000 in
/-- Witness for C5 at a concrete 1001-character input, which chunks into
two windows overlapping in exactly 200 characters. -/
theorem c5_chunk_size_overlap_witness :
    (0 + 1 < (chunkTextModel demoText).length) ∧
    (((chunkTextModel demoText)[0]?).map (fun c => c.data.drop 800) =
      ((chunkTextModel demoText)[0 + 1]?).map (fun c => c.data.take 200) ∧
    ((chunkTextModel demoText)[0]?).map (fun c => (c.data.drop 800).length) = some 200) :=
  ⟨by decide, (c5_chunk_size_overlap demoText).2 0 (by decide)⟩

/-- Re-applying a batch upsert leaves the collection unchanged: the second
application overwrites every batch id with the row it already carries. -/
lemma upsertBatch_idem {E : Type} (st : Store E) (b : Batch E) :
    upsertBatch (upsertBatch st b) b = upsertBatch st b := by
  funext key
  unfold upsertBatch
  cases h : (batchRows b).find? (fun p => p.1 == key) <;> simp [h]

/-- An empty filtered listing makes ingestDocuments return the no-PDF
failure result and leave the collection untouched. -/
lemma ingestDocuments_noPdf {E : Type} (extract : String → Except String String)
    (api : List String → Option (List E)) (dir : String) (files : List String)
    (st : Store E) (h : listPdfFiles files = []) :
    ingestDocuments (.ok ()) extract api dir files st =
      (st, ⟨false, 0, some (noPdfMsg dir)⟩) := by
  unfold ingestDocuments
  simp [h]

/-- An empty filtered listing makes ingestDocumentsXenova return the
no-PDF failure result and leave the collection untouched. -/
lemma ingestDocumentsXenova_noPdf {E : Type} (extract : String → Except String String)
    (tensorize : List String → Except String (Nat → E)) (dir : String)
    (files : List String) (st : Store E) (h : listPdfFiles files = []) :
    ingestDocumentsXenova (.ok ()) extract tensorize dir files st =
      (st, ⟨false, 0, some (noPdfMsg dir)⟩) := by
  unfold ingestDocumentsXenova
  simp [h]

/-- Claim C1 (amended): in the Xenova pipeline a document whose extraction
fails or yields empty output, or whose chunking yields no chunks, is
skipped and the run continues exactly as if the document were absent: no
partial upsert for it, and the run result (success and count) is that of
the remaining documents. -/
theorem c1_xenova_skip {E : Type} (extract : String → Except String String)
    (tensorize : List String → Except String (Nat → E)) (st : Store E)
    (f : String) (fs : List String) (acc : Nat)
    (h : (∃ e, extract f = .error e) ∨
         (∃ t, extract f = .ok t ∧ chunkTextModel t = [])) :
    ingestLoopXenova extract tensorize (f :: fs) st acc =
      ingestLoopXenova extract tensorize fs st acc := by
  have hskip : processFileXenova extract tensorize st f = .ok (st, 0) := by
    rcases h with ⟨e, he⟩ | ⟨t, ht, hc⟩
    · unfold processFileXenova
      rw [he]
    · unfold processFileXenova
      rw [ht]
      by_cases hl : t.length = 0
      · simp [hl]
      · simp [hl, hc]
  simp only [ingestLoopXenova, hskip, Nat.add_zero]

/-- Witness for the amended claim C1: a run whose first document extracts
to empty text proceeds exactly as the run over the remaining file alone. -/
theorem c1_xenova_skip_witness :
    ingestLoopXenova skipExtract demoTensorize ("a.pdf" :: ["b.pdf"]) demoStore0 0 =
      ingestLoopXenova skipExtract demoTensorize ["b.pdf"] demoStore0 0 :=
  c1_xenova_skip skipExtract demoTensorize demoStore0 "a.pdf" ["b.pdf"] 0
    (Or.inr ⟨"", rfl, rfl⟩)

/-- Counterexample to claim C1 as stated: in the Gemini cloud pipeline
(ingestDocuments, src/lib/ingestion.ts) a document whose extraction yields
empty output is not skipped.  Chunking the empty text yields zero chunks,
the embeddings check of generateEmbeddings then throws, and the whole run
returns success false and count 0; the remaining document b.pdf is never
ingested (its row id is absent from the collection), although the
extraction collaborator is well-defined on it and the embedding API is
well-behaved. -/
theorem c1_counterexample :
    (ingestDocuments (.ok ()) cexEmptyExtract demoApi "documents"
        ["a.pdf", "b.pdf"] demoStore0).2.success = false ∧
    (ingestDocuments (.ok ()) cexEmptyExtract demoApi "documents"
        ["a.pdf", "b.pdf"] demoStore0).2.count = 0 ∧
    (ingestDocuments (.ok ()) cexEmptyExtract demoApi "documents"
        ["a.pdf", "b.pdf"] demoStore0).1 "b.pdf-0" = none :=
  ⟨rfl, rfl, rfl⟩

/-- Claim C2: re-ingesting the same document (same source file name, same
extracted text, deterministic collaborators) leaves the collection state
exactly as after the first run, for both pipelines: in particular the set
of chunk row ids is unchanged and the row stored under each id is the
result of the latest run. -/
theorem c2_reingest_idempotent {E : Type} :
    (∀ (extract : String → Except String String)
        (api : List String → Option (List E)) (st st1 : Store E)
        (f : String) (n : Nat),
      processFileCloud extract api st f = .ok (st1, n) →
      processFileCloud extract api st1 f = .ok (st1, n)) ∧
    (∀ (extract : String → Except String String)
        (tensorize : List String → Except String (Nat → E)) (st st1 : Store E)
        (f : String) (n : Nat),
      processFileXenova extract tensorize st f = .ok (st1, n) →
      processFileXenova extract tensorize st1 f = .ok (st1, n)) := by
  constructor
  · intro extract api st st1 f n h
    unfold processFileCloud at h ⊢
    cases hex : extract f with
    | error e => rw [hex] at h; cases h
    | ok fullText =>
      rw [hex] at h
      cases hem : generateEmbeddings api (chunkTextModel fullText) with
      | error e => simp only [hem] at h; cases h
      | ok es =>
        simp only [hem] at h ⊢
        obtain ⟨h1, h2⟩ : upsertBatch st (mkBatch f (chunkTextModel fullText) es) = st1 ∧
            (chunkTextModel fullText).length = n := by
          cases h; exact ⟨rfl, rfl⟩
        subst h2
        rw [← h1, upsertBatch_idem]
  · intro extract tensorize st st1 f n h
    unfold processFileXenova at h ⊢
    cases hex : extract f with
    | error e =>
      rw [hex] at h
      cases h
      rfl
    | ok fullText =>
      rw [hex] at h
      by_cases hl : fullText.length = 0
      · simp only [if_pos hl] at h
        cases h
        simp [hl]
      · simp only [if_neg hl] at h ⊢
        by_cases hch : (chunkTextModel fullText).length = 0
        · simp only [if_pos hch] at h
          cases h
          simp [hch]
        · simp only [if_neg hch] at h ⊢
          cases hem : generateEmbeddingsXenova tensorize (chunkTextModel fullText) with
          | error e => simp only [hem] at h; cases h
          | ok es =>
            simp only [hem] at h ⊢
            obtain ⟨h1, h2⟩ : upsertBatch st (mkBatch f (chunkTextModel fullText) es) = st1 ∧
                (chunkTextModel fullText).length = n := by
              cases h; exact ⟨rfl, rfl⟩
            subst h2
            rw [← h1, upsertBatch_idem]

/-- Witness for C2: ingesting the concrete document a.pdf a second time,
in either pipeline, returns exactly the collection produced by the first
ingestion. -/
theorem c2_reingest_idempotent_witness :
    processFileCloud demoExtract demoApi demoStore1 "a.pdf" = .ok (demoStore1, 1) ∧
    processFileXenova demoExtract demoTensorize demoStore1 "a.pdf" = .ok (demoStore1, 1) :=
  ⟨c2_reingest_idempotent.1 demoExtract demoApi demoStore0 demoStore1 "a.pdf" 1 rfl,
   c2_reingest_idempotent.2 demoExtract demoTensorize demoStore0 demoStore1 "a.pdf" 1 rfl⟩

/-- Claim C3: for every document, the four arrays handed to
collection.upsert are aligned: ids, embeddings, documents and metadatas
all have the chunk count as length, and position i carries the id, text
and metadata of chunk i.  The embeddings array has that length by
construction in the Xenova provider, and in the cloud provider whenever
the external API honours its one-vector-per-input contract. -/
theorem c3_upsert_arrays_aligned {E : Type} :
    (∀ (f : String) (chunks : List String) (embs : List E),
      embs.length = chunks.length →
      (mkBatch f chunks embs).ids.length = chunks.length ∧
      (mkBatch f chunks embs).embeddings.length = chunks.length ∧
      (mkBatch f chunks embs).documents.length = chunks.length ∧
      (mkBatch f chunks embs).metadatas.length = chunks.length ∧
      (∀ i, i < chunks.length →
        (mkBatch f chunks embs).ids[i]? = some (f ++ "-" ++ toString i) ∧
        (mkBatch f chunks embs).documents[i]? = chunks[i]? ∧
        (mkBatch f chunks embs).metadatas[i]? = some ⟨f, i⟩)) ∧
    (∀ (tensorize : List String → Except String (Nat → E))
        (chunks : List String) (es : List E),
      generateEmbeddingsXenova tensorize chunks = .ok es →
      es.length = chunks.length) ∧
    (∀ (api : List String → Option (List E)) (chunks : List String) (es : List E),
      api chunks = some es → es.length = chunks.length → chunks ≠ [] →
      generateEmbeddings api chunks = .ok es) := by
  refine ⟨?_, ?_, ?_⟩
  · intro f chunks embs hlen
    refine ⟨by simp [mkBatch, buildIds], hlen, rfl, by simp [mkBatch, buildMetadatas], ?_⟩
    intro i hi
    refine ⟨?_, rfl, ?_⟩
    · simp [mkBatch, buildIds, List.getElem?_map, List.getElem?_range, hi]
    · simp [mkBatch, buildMetadatas, List.getElem?_map, List.getElem?_range, hi]
  · intro tensorize chunks es h
    unfold generateEmbeddingsXenova at h
    cases ht : tensorize chunks with
    | error e => rw [ht] at h; cases h
    | ok tensor =>
      rw [ht] at h
      cases h
      simp
  · intro api chunks es hapi hlen hne
    unfold generateEmbeddings
    rw [hapi]
    have : es.length ≠ 0 := by
      rw [hlen]
      simpa using hne
    simp [this]

/-- Witness for C3 at the one-chunk document a.pdf with a well-behaved
provider on each side. -/
theorem c3_upsert_arrays_aligned_witness :
    (mkBatch "a.pdf" ["x"] [(7 : Nat)]).ids.length = (["x"] : List String).length ∧
    (mkBatch "a.pdf" ["x"] [(7 : Nat)]).ids[0]? = some ("a.pdf" ++ "-" ++ toString 0) ∧
    (mkBatch "a.pdf" ["x"] [(7 : Nat)]).metadatas[0]? = some ⟨"a.pdf", 0⟩ ∧
    ([(7 : Nat)] : List Nat).length = (["x"] : List String).length ∧
    generateEmbeddings demoApi ["x"] = .ok [7] :=
  ⟨((@c3_upsert_arrays_aligned Nat).1 "a.pdf" ["x"] [7] rfl).1,
   (((@c3_upsert_arrays_aligned Nat).1 "a.pdf" ["x"] [7] rfl).2.2.2.2 0 (by decide)).1,
   (((@c3_upsert_arrays_aligned Nat).1 "a.pdf" ["x"] [7] rfl).2.2.2.2 0 (by decide)).2.2,
   (@c3_upsert_arrays_aligned Nat).2.1 demoTensorize ["x"] [7] rfl,
   (@c3_upsert_arrays_aligned Nat).2.2 demoApi ["x"] [7] rfl rfl (by simp)⟩

/-- Claim C4: for every accepted input batch of n texts, both embedding
providers return exactly n vectors in input order: the Xenova provider
returns the tensor rows 0 to n - 1 in order by construction, and the cloud
provider returns the API response list unchanged, which has one vector per
input whenever the external API honours its contract. -/
theorem c4_embed_length_order {E : Type} :
    (∀ (tensorize : List String → Except String (Nat → E)) (texts : List String)
        (tensor : Nat → E) (out : List E),
      tensorize texts = .ok tensor →
      generateEmbeddingsXenova tensorize texts = .ok out →
      out.length = texts.length ∧ ∀ i, i < texts.length → out[i]? = some (tensor i)) ∧
    (∀ (api : List String → Option (List E)) (texts : List String) (es : List E),
      api texts = some es → es.length = texts.length → texts ≠ [] →
      generateEmbeddings api texts = .ok es) := by
  constructor
  · intro tensorize texts tensor out ht h
    unfold generateEmbeddingsXenova at h
    rw [ht] at h
    cases h
    constructor
    · simp
    · intro i hi
      simp [List.getElem?_map, List.getElem?_range, hi]
  · intro api texts es hapi hlen hne
    unfold generateEmbeddings
    rw [hapi]
    have : es.length ≠ 0 := by
      rw [hlen]
      simpa using hne
    simp [this]

/-- Witness for C4 at a concrete one-element batch for each provider. -/
theorem c4_embed_length_order_witness :
    (([(7 : Nat)] : List Nat).length = (["x"] : List String).length) ∧
    (([(7 : Nat)] : List Nat)[0]? = some 7) ∧
    generateEmbeddings demoApi ["x"] = .ok [(7 : Nat)] :=
  ⟨(c4_embed_length_order.1 demoTensorize ["x"] (fun _ => 7) [7] rfl rfl).1,
   (c4_embed_length_order.1 demoTensorize ["x"] (fun _ => 7) [7] rfl rfl).2 0 (by decide),
   c4_embed_length_order.2 demoApi ["x"] [7] rfl rfl (by simp)⟩

/-- Claim C6: when the filtered listing of the documents directory is
empty, both pipelines return success false, count 0 and the descriptive
No PDF files found error as a value (the code path is a return statement,
not a throw), and the collection is left untouched (no upsert). -/
theorem c6_no_files_failure {E : Type} (extract : String → Except String String)
    (api : List String → Option (List E))
    (tensorize : List String → Except String (Nat → E))
    (dir : String) (files : List String) (st stx : Store E)
    (h : listPdfFiles files = []) :
    ingestDocuments (.ok ()) extract api dir files st =
      (st, ⟨false, 0, some (noPdfMsg dir)⟩) ∧
    ingestDocumentsXenova (.ok ()) extract tensorize dir files stx =
      (stx, ⟨false, 0, some (noPdfMsg dir)⟩) :=
  ⟨ingestDocuments_noPdf extract api dir files st h,
   ingestDocumentsXenova_noPdf extract tensorize dir files stx h⟩

/-- Witness for C6: a directory listing holding only a text file. -/
theorem c6_no_files_failure_witness :
    ingestDocuments (.ok ()) demoExtract demoApi "documents" ["notes.txt"] demoStore0 =
      (demoStore0, ⟨false, 0, some (noPdfMsg "documents")⟩) ∧
    ingestDocumentsXenova (.ok ()) demoExtract demoTensorize "documents" ["notes.txt"]
        demoStore0 =
      (demoStore0, ⟨false, 0, some (noPdfMsg "documents")⟩) :=
  c6_no_files_failure demoExtract demoApi demoTensorize "documents" ["notes.txt"]
    demoStore0 demoStore0 rfl

/-- Claim C7: the id array entry for chunk i of a document is the string
source dash i, and the metadata array entry for chunk i is the record with
exactly the fields source and chunk_index carrying the file name and the
0-based chunk position (the Metadata structure of this model has exactly
those two fields). -/
theorem c7_id_metadata_format (f : String) (n i : Nat) (h : i < n) :
    (buildIds f n)[i]? = some (f ++ "-" ++ toString i) ∧
    (buildMetadatas f n)[i]? = some ⟨f, i⟩ := by
  constructor
  · simp [buildIds, List.getElem?_map, List.getElem?_range, h]
  · simp [buildMetadatas, List.getElem?_map, List.getElem?_range, h]

/-- Witness for C7: the third chunk of a three-chunk document a.pdf gets
row id a.pdf-2 and metadata source a.pdf, chunk_index 2. -/
theorem c7_id_metadata_format_witness :
    (buildIds "a.pdf" 3)[2]? = some ("a.pdf" ++ "-" ++ toString 2) ∧
    (buildMetadatas "a.pdf" 3)[2]? = some ⟨"a.pdf", 2⟩ :=
  c7_id_metadata_format "a.pdf" 3 2 (by decide)

/-- Claim C8: a chat POST request whose body has a missing query field or
an empty-string query is answered with status 400 and runRAGChatXenova is
never invoked, so no embedding, retrieval or generation call is issued. -/
theorem c8_empty_query_bad_request (q : Option String)
    (h : q = none ∨ q = some "") :
    (chatPOST q).status = 400 ∧ (chatPOST q).ragCalls = [] := by
  rcases h with rfl | rfl <;> simp [chatPOST]

/-- Witness for C8 at a request without a query field. -/
theorem c8_empty_query_bad_request_witness :
    (chatPOST none).status = 400 ∧ (chatPOST none).ragCalls = [] :=
  c8_empty_query_bad_request none (Or.inl rfl)

/-- Claim C9: when a run fails on a later document after an earlier
document was upserted (here, an embedding failure on the second file), the
returned result is success false with count 0 regardless of the chunks
already written, and the returned collection is exactly the one after the
first document's upsert: the already-upserted rows remain, with no
rollback.  Stated for both pipelines. -/
theorem c9_late_failure_count_zero_no_rollback {E : Type} :
    (∀ (extract : String → Except String String)
        (api : List String → Option (List E)) (st st1 : Store E)
        (f1 f2 : String) (fs : List String) (n1 acc : Nat) (msg : String),
      processFileCloud extract api st f1 = .ok (st1, n1) →
      processFileCloud extract api st1 f2 = .error msg →
      ingestLoopCloud extract api (f1 :: f2 :: fs) st acc =
        (st1, ⟨false, 0, some msg⟩)) ∧
    (∀ (extract : String → Except String String)
        (tensorize : List String → Except String (Nat → E)) (st st1 : Store E)
        (f1 f2 : String) (fs : List String) (n1 acc : Nat) (msg : String),
      processFileXenova extract tensorize st f1 = .ok (st1, n1) →
      processFileXenova extract tensorize st1 f2 = .error msg →
      ingestLoopXenova extract tensorize (f1 :: f2 :: fs) st acc =
        (st1, ⟨false, 0, some msg⟩)) := by
  constructor
  · intro extract api st st1 f1 f2 fs n1 acc msg h1 h2
    simp only [ingestLoopCloud, h1, h2]
  · intro extract tensorize st st1 f1 f2 fs n1 acc msg h1 h2
    simp only [ingestLoopXenova, h1, h2]

/-- Witness for C9: a two-file run where the embedding collaborator
answers the first batch and fails on the second, in each pipeline. -/
theorem c9_late_failure_count_zero_no_rollback_witness :
    ingestLoopCloud failExtract failApi ["a.pdf", "b.pdf"] demoStore0 0 =
      (failStore1, ⟨false, 0, some embedFailMsg⟩) ∧
    ingestLoopXenova failExtract failTensorize ["a.pdf", "b.pdf"] demoStore0 0 =
      (failStore1, ⟨false, 0, some "Tensor conversion failed"⟩) :=
  ⟨c9_late_failure_count_zero_no_rollback.1 failExtract failApi demoStore0 failStore1
      "a.pdf" "b.pdf" [] 1 0 embedFailMsg rfl rfl,
   c9_late_failure_count_zero_no_rollback.2 failExtract failTensorize demoStore0 failStore1
      "a.pdf" "b.pdf" [] 1 0 "Tensor conversion failed" rfl rfl⟩

/-- Claim C10: both pipelines enumerate only files whose names end with
the exact lowercase suffix .pdf, and a listing whose files all lack that
exact suffix (for example only uppercase .PDF variants) yields the
non-fatal No PDF files found failure in both pipelines, with the
collection untouched. -/
theorem c10_lowercase_pdf_only {E : Type} :
    (∀ files : List String, ∀ g ∈ listPdfFiles files, endsWithModel g ".pdf" = true) ∧
    (∀ (extract : String → Except String String)
        (api : List String → Option (List E))
        (tensorize : List String → Except String (Nat → E))
        (dir : String) (files : List String) (st stx : Store E),
      (∀ f ∈ files, endsWithModel f ".pdf" = false) →
      ingestDocuments (.ok ()) extract api dir files st =
        (st, ⟨false, 0, some (noPdfMsg dir)⟩) ∧
      ingestDocumentsXenova (.ok ()) extract tensorize dir files stx =
        (stx, ⟨false, 0, some (noPdfMsg dir)⟩)) := by
  constructor
  · intro files g hg
    exact (List.mem_filter.mp hg).2
  · intro extract api tensorize dir files st stx h
    have hnil : listPdfFiles files = [] := by
      unfold listPdfFiles
      rw [List.filter_eq_nil_iff]
      intro a ha
      simp [h a ha]
    exact ⟨ingestDocuments_noPdf extract api dir files st hnil,
           ingestDocumentsXenova_noPdf extract tensorize dir files stx hnil⟩

/-- Witness for C10: a listing containing only the uppercase variant
a.PDF is treated as containing zero matching files, and a lowercase
a.pdf file passes the filter. -/
theorem c10_lowercase_pdf_only_witness :
    endsWithModel "a.pdf" ".pdf" = true ∧
    (ingestDocuments (.ok ()) demoExtract demoApi "documents" ["a.PDF"] demoStore0 =
      (demoStore0, ⟨false, 0, some (noPdfMsg "documents")⟩) ∧
    ingestDocumentsXenova (.ok ()) demoExtract demoTensorize "documents" ["a.PDF"]
        demoStore0 =
      (demoStore0, ⟨false, 0, some (noPdfMsg "documents")⟩)) :=
  ⟨(@c10_lowercase_pdf_only Nat).1 ["a.pdf"] "a.pdf" (by decide),
   (@c10_lowercase_pdf_only Nat).2 demoExtract demoApi demoTensorize "documents" ["a.PDF"]
     demoStore0 demoStore0 (by decide)⟩

end Kummatty
